import Mathlib

/-!
Shallow embedding of the finance bot `main.py` (telegram-finance-bot).

Modelling conventions:
* Monetary amounts (Python floats) are embedded as rationals `ℚ`: the program
  performs only sums, differences and multiplications by the literals
  `0.4` / `0.2`, so exact rational arithmetic is the idealized semantics
  (IEEE rounding is out of scope, as is `float('inf')`/`nan`/underscore
  literals accepted by Python's `float`).
* SQLite rows become Lean structures; a table is a `List` of rows ordered by
  insertion (rowid order); `INSERT` is `++ [row]`; autoincrement ids and the
  wall clock are passed in as explicit parameters.
* `created_at` is stored by the program as `datetime.isoformat()` text and
  compared with SQL `BETWEEN` (string comparison, which on this zero-padded
  format agrees with chronological order).  We embed timestamps as a record
  of components with lexicographic order, and `BETWEEN a AND b` as the
  inclusive `a ≤ t ∧ t ≤ b`.
* Fallible operations return `Option`, re-prompt handlers return the
  (possibly unchanged) state plus a success flag.
-/

attribute [local semireducible] Rat.add Rat.mul Rat.inv Rat.sub Rat.ofScientific

/-- Timestamp components, standing for the `datetime.utcnow().isoformat()`
strings the program stores.  -/
structure DateTime where
  year : Nat
  month : Nat
  day : Nat
  hour : Nat
  minute : Nat
  second : Nat
  micro : Nat
deriving DecidableEq, Repr

/-- Lexicographic `≤` on timestamp components: this is the order SQL string
comparison induces on the ISO-format `created_at` column. -/
def DateTime.le (a b : DateTime) : Bool :=
  if a.year ≠ b.year then decide (a.year < b.year)
  else if a.month ≠ b.month then decide (a.month < b.month)
  else if a.day ≠ b.day then decide (a.day < b.day)
  else if a.hour ≠ b.hour then decide (a.hour < b.hour)
  else if a.minute ≠ b.minute then decide (a.minute < b.minute)
  else if a.second ≠ b.second then decide (a.second < b.second)
  else decide (a.micro ≤ b.micro)

/-- Strict lexicographic order on timestamps. -/
def DateTime.lt (a b : DateTime) : Bool :=
  DateTime.le a b && decide (a ≠ b)

/-- `datetime(year, month, 1)` — first instant of a month. -/
def monthFirst (year month : Nat) : DateTime :=
  ⟨year, month, 1, 0, 0, 0, 0⟩

/-- The `if month == 12 then datetime(year+1,1,1) else datetime(year,month+1,1)`
computation both month queries perform. -/
def monthNext (year month : Nat) : DateTime :=
  if month = 12 then ⟨year + 1, 1, 1, 0, 0, 0, 0⟩
  else ⟨year, month + 1, 1, 0, 0, 0, 0⟩

/-! ## MoneyParser: `parse_vietnamese_money` / Python `float` -/

/-- Digit accumulator: reads a maximal run of decimal digits, returning the
accumulated value, the number of digits read, and the rest of the input. -/
def readDigitsAux : Nat → Nat → List Char → Nat × Nat × List Char
  | acc, n, [] => (acc, n, [])
  | acc, n, c :: cs =>
    if c.isDigit then readDigitsAux (acc * 10 + (c.toNat - 48)) (n + 1) cs
    else (acc, n, c :: cs)

/-- Sign token of a Python float exponent: `(negated, rest)`. -/
def expSign (r : List Char) : Bool × List Char :=
  match r with
  | '-' :: r2 => (true, r2)
  | '+' :: r2 => (false, r2)
  | r2 => (false, r2)

/-- Optional exponent suffix of a Python float literal (after `e`/`E`). -/
def readExponent (mant : ℚ) (r : List Char) : Option ℚ :=
  let s := expSign r
  let d := readDigitsAux 0 0 s.2
  if d.2.1 = 0 ∨ d.2.2 ≠ [] then none
  else some (mant * (if s.1 then ((10 : ℚ) ^ d.1)⁻¹ else (10 : ℚ) ^ d.1))

/-- Fractional part after the integer digits: reads `.digits` when present. -/
def fracPart (cs1 : List Char) : Nat × Nat × List Char :=
  match cs1 with
  | '.' :: r => readDigitsAux 0 0 r
  | _ => (0, 0, cs1)

/-- Unsigned part of a Python float literal: digits, optional `.digits`
fraction, optional exponent.  (`inf`/`nan`/underscore forms have no rational
meaning and are outside the model.) -/
def readMagnitude (cs : List Char) : Option ℚ :=
  let ipart := readDigitsAux 0 0 cs
  let fpart := fracPart ipart.2.2
  if ipart.2.1 = 0 ∧ fpart.2.1 = 0 then none
  else
    let mant : ℚ := (ipart.1 : ℚ) + (fpart.1 : ℚ) / (10 : ℚ) ^ fpart.2.1
    match fpart.2.2 with
    | [] => some mant
    | 'e' :: r => readExponent mant r
    | 'E' :: r => readExponent mant r
    | _ => none

/-- Signed Python float literal. -/
def pyFloatCore (cs : List Char) : Option ℚ :=
  match cs with
  | '-' :: r => (readMagnitude r).map (fun m => -m)
  | '+' :: r => readMagnitude r
  | r => readMagnitude r

/-- Whitespace trim on a character list (`str.strip()` / the stripping
`float()` applies). -/
def trimChars (cs : List Char) : List Char :=
  ((cs.dropWhile Char.isWhitespace).reverse.dropWhile Char.isWhitespace).reverse

/-- Python `float(t)`, on the rational fragment. -/
def pyFloat (cs : List Char) : Option ℚ :=
  pyFloatCore (trimChars cs)

/-- Fuel-driven single-pass replacement of `"triệu"` by `"tr"`, mirroring
Python `str.replace` (left-to-right, non-overlapping). -/
def replaceTrieuAux : Nat → List Char → List Char
  | 0, cs => cs
  | _ + 1, [] => []
  | fuel + 1, c :: cs =>
    if c = 't' ∧ cs.take 4 = ['r', 'i', 'ệ', 'u'] then
      't' :: 'r' :: replaceTrieuAux fuel (cs.drop 4)
    else c :: replaceTrieuAux fuel cs

/-- `t.replace("triệu", "tr")` (replacing when absent is the identity, so the
source's `if "triệu" in t` guard is dropped without change of meaning). -/
def replaceTrieu (cs : List Char) : List Char :=
  replaceTrieuAux cs.length cs

/-- `t.endswith("k")`. -/
def endsWithK (cs : List Char) : Bool :=
  decide (cs.getLast? = some 'k')

/-- `t.endswith("tr")`. -/
def endsWithTr (cs : List Char) : Bool :=
  decide (2 ≤ cs.length ∧ cs.drop (cs.length - 2) = ['t', 'r'])

/-- `text.lower().strip()` (ASCII lowering; the inputs of interest are
already lowercase outside ASCII). -/
def moneyNorm (text : String) : List Char :=
  trimChars (text.data.map Char.toLower)

/-- After space removal and `triệu → tr` normalization. -/
def moneyBody (text : String) : List Char :=
  replaceTrieu ((moneyNorm text).filter (fun c => c ≠ ' '))

/-- The multiplier chosen from the trailing `k` / `tr` token. -/
def moneyMult (text : String) : ℚ :=
  if endsWithK (moneyBody text) then 1000
  else if endsWithTr (moneyBody text) then 1000000
  else 1

/-- The digit string handed to `float`: multiplier suffix stripped, then all
`.` and `,` characters removed. -/
def moneyDigits (text : String) : List Char :=
  let t := moneyBody text
  let t :=
    if endsWithK t then t.take (t.length - 1)
    else if endsWithTr t then t.take (t.length - 2)
    else t
  t.filter (fun c => c ≠ '.' ∧ c ≠ ',')

/-- `parse_vietnamese_money` (main.py lines 54–88).  `none` models the raised
`ValueError`. -/
def parse_vietnamese_money (text : String) : Option ℚ :=
  if moneyNorm text = [] then none
  else if moneyDigits text = [] then none
  else (pyFloat (moneyDigits text)).map (fun n => n * moneyMult text)

/-! ## Data model (SQLite rows) -/

/-- A row of the `transactions` table. -/
structure Tx where
  id : Nat
  user_id : Nat
  tx_type : String
  amount : ℚ
  category : String
  note : String
  wallet_id : Option Nat
  created_at : DateTime
deriving DecidableEq, Repr

/-- A row of the `wallets` table. -/
structure Wallet where
  id : Nat
  user_id : Nat
  name : String
  purpose : String
deriving DecidableEq, Repr

/-- A row of the `saving_goals` table. -/
structure SavingGoal where
  id : Nat
  user_id : Nat
  name : String
  target_amount : ℚ
  current_amount : ℚ
deriving DecidableEq, Repr

/-- A row of the `saving_goal_transactions` table. -/
structure GoalTx where
  goal_id : Nat
  tx_type : String
  amount : ℚ
  note : String
deriving DecidableEq, Repr

/-- A row of the `limits` table. -/
structure SpendingLimit where
  user_id : Nat
  category : String
  period : String
  limit_amount : ℚ
deriving DecidableEq, Repr

/-! ## LedgerStore operations (class `Database`) -/

/-- `Database.add_transaction`: one `INSERT` into `transactions`; the
autoincrement id and `datetime.utcnow()` are passed in explicitly. -/
def add_transaction (txs : List Tx) (uid : Nat) (tx_type : String) (amount : ℚ)
    (category note : String) (wallet_id : Option Nat) (txid : Nat)
    (now : DateTime) : List Tx :=
  txs ++ [⟨txid, uid, tx_type, amount, category, note, wallet_id, now⟩]

/-- Signed value of a transaction:
`CASE WHEN type='income' THEN amount ELSE -amount END`. -/
def signedAmount (t : Tx) : ℚ :=
  if t.tx_type = "income" then t.amount else -t.amount

/-- `Database.get_wallet_balance`: signed sum over the user's transactions on
one wallet. -/
def get_wallet_balance (txs : List Tx) (uid wid : Nat) : ℚ :=
  ((txs.filter fun t => decide (t.user_id = uid ∧ t.wallet_id = some wid)).map
    signedAmount).sum

/-- `Database.get_balance`: total income minus total expense over all of the
user's transactions (two separate `SUM` queries in the source). -/
def get_balance (txs : List Tx) (uid : Nat) : ℚ :=
  ((txs.filter fun t => decide (t.user_id = uid ∧ t.tx_type = "income")).map
      Tx.amount).sum -
    ((txs.filter fun t => decide (t.user_id = uid ∧ t.tx_type = "expense")).map
      Tx.amount).sum

/-- Membership test of `Database.get_spent_in_month_for_category`'s `WHERE`
clause: user, expense type, category, and
`created_at BETWEEN first AND last` (SQL `BETWEEN` is inclusive at both
ends). -/
def inMonthSpend (uid : Nat) (category : String) (year month : Nat)
    (t : Tx) : Bool :=
  decide (t.user_id = uid) && decide (t.tx_type = "expense") &&
    decide (t.category = category) &&
    DateTime.le (monthFirst year month) t.created_at &&
    DateTime.le t.created_at (monthNext year month)

/-- `Database.get_spent_in_month_for_category`. -/
def get_spent_in_month_for_category (txs : List Tx) (uid : Nat)
    (category : String) (year month : Nat) : ℚ :=
  ((txs.filter (inMonthSpend uid category year month)).map Tx.amount).sum

/-- `Database.get_limit`: first row for `(user, category, period)`, if any. -/
def get_limit (ls : List SpendingLimit) (uid : Nat) (category period : String) :
    Option ℚ :=
  ((ls.filter fun l =>
      decide (l.user_id = uid ∧ l.category = category ∧ l.period = period)).head?).map
    SpendingLimit.limit_amount

/-- `Database.update_transaction_amount`: `UPDATE transactions SET amount=?
WHERE id=? AND user_id=?`. -/
def update_transaction_amount (txs : List Tx) (uid txid : Nat) (amount : ℚ) :
    List Tx :=
  txs.map fun t =>
    if t.id = txid ∧ t.user_id = uid then { t with amount := amount } else t

/-- `Database.update_transaction_category`. -/
def update_transaction_category (txs : List Tx) (uid txid : Nat)
    (category : String) : List Tx :=
  txs.map fun t =>
    if t.id = txid ∧ t.user_id = uid then { t with category := category } else t

/-- `Database.update_transaction_note`. -/
def update_transaction_note (txs : List Tx) (uid txid : Nat) (note : String) :
    List Tx :=
  txs.map fun t =>
    if t.id = txid ∧ t.user_id = uid then { t with note := note } else t

/-- The four default wallets `ensure_default_wallets` inserts (ids are the
next four autoincrement values). -/
def defaultWallets (uid baseId : Nat) : List Wallet :=
  [⟨baseId, uid, "Chi tiêu thiết yếu", "4-2-2-2 essential"⟩,
   ⟨baseId + 1, uid, "Tiết kiệm dài hạn", "4-2-2-2 long_term"⟩,
   ⟨baseId + 2, uid, "Đầu tư & Tự do tài chính", "4-2-2-2 invest"⟩,
   ⟨baseId + 3, uid, "Chi tiêu cá nhân & Phát triển", "4-2-2-2 personal"⟩]

/-- `Database.ensure_default_wallets`: inserts the four 4-2-2-2 wallets iff
the user has no wallet yet. -/
def ensure_default_wallets (ws : List Wallet) (uid baseId : Nat) : List Wallet :=
  if 0 < (ws.filter fun w => decide (w.user_id = uid)).length then ws
  else ws ++ defaultWallets uid baseId

/-- `Database.get_wallets`: the user's wallets in id (insertion) order. -/
def get_wallets (ws : List Wallet) (uid : Nat) : List Wallet :=
  ws.filter fun w => decide (w.user_id = uid)

/-- `purpose_map = {w["purpose"]: w for w in wallets}` followed by
`purpose_map.get(p)`: the **last** wallet with the given purpose (later dict
entries overwrite earlier ones). -/
def purposeLookup (ws : List Wallet) (p : String) : Option Wallet :=
  (ws.filter fun w => decide (w.purpose = p)).getLast?

/-! ## ConversationEngine commit steps -/

/-- Commit step of the AddTransaction flow (`add_tx_wallet`, main.py lines
1209–1263): the transaction is inserted first, then — for expenses only —
the month-to-date spend of its category (computed over the store that now
contains it) is compared with the stored monthly limit; the returned flag
says whether the warning text is appended to the confirmation. -/
def add_tx_wallet_commit (txs : List Tx) (ls : List SpendingLimit) (uid : Nat)
    (tx_type : String) (amount : ℚ) (category note : String) (wid : Nat)
    (txid : Nat) (now : DateTime) (year month : Nat) : List Tx × Bool :=
  let txs1 := add_transaction txs uid tx_type amount category note (some wid) txid now
  let warn :=
    if tx_type = "expense" then
      let spent := get_spent_in_month_for_category txs1 uid category year month
      match get_limit ls uid category "month" with
      | some lim => decide (lim < spent)
      | none => false
    else false
  (txs1, warn)

/-- Commit step of the Transfer flow (`transfer_enter_note`, main.py lines
1643–1687): one expense on the source wallet, then one income of the same
amount on the destination wallet, each naming the other wallet in its
category field. -/
def transfer_commit (txs : List Tx) (uid fromWid toWid : Nat)
    (fromName toName : String) (amount : ℚ) (note : String) (id1 id2 : Nat)
    (t1 t2 : DateTime) : List Tx :=
  let txs1 := add_transaction txs uid "expense" amount
    ("Chuyển sang ví " ++ toName) note (some fromWid) id1 t1
  add_transaction txs1 uid "income" amount
    ("Chuyển từ ví " ++ fromName) note (some toWid) id2 t2

/-- Commit step of the GoalDeposit / GoalWithdraw flow (`goal_money_note`,
main.py lines 2041–2084) for one goal and its history.  The `action` string
is `"deposit"` or anything else for withdraw, as in the source.  The flag
reports success; on a rejected withdraw the handler answers an error and
returns with no store call, so goal and history come back unchanged. -/
def goal_money_note_commit (goal : SavingGoal) (history : List GoalTx)
    (action : String) (amount : ℚ) (note : String) :
    SavingGoal × List GoalTx × Bool :=
  let current := goal.current_amount
  if action = "deposit" then
    ({ goal with current_amount := current + amount },
     history ++ [⟨goal.id, "deposit", amount, note⟩], true)
  else
    if current < amount then (goal, history, false)
    else
      ({ goal with current_amount := current - amount },
       history ++ [⟨goal.id, "withdraw", amount, note⟩], true)

/-- The 4-2-2-2 allocation computed by `budget_income` (main.py lines
1291–1294) and reused by `salary_enter_amount`. -/
def budget_income_alloc (total : ℚ) : ℚ × ℚ × ℚ × ℚ :=
  (total * 0.4, total * 0.2, total * 0.2, total * 0.2)

/-- Commit step of the Salary-split flow (`salary_enter_amount`, main.py
lines 1376–1453): ensure the default wallets, look the four canonical
wallets up by purpose; if any is missing answer an error (flag `false`, no
transaction inserted); otherwise insert four income transactions with the
40/20/20/20 amounts, one per canonical wallet. -/
def salary_enter_amount_commit (ws : List Wallet) (txs : List Tx) (uid : Nat)
    (total : ℚ) (baseWalletId baseTxId : Nat) (now : DateTime) :
    (List Wallet × List Tx) × Bool :=
  let ws1 := ensure_default_wallets ws uid baseWalletId
  let uws := get_wallets ws1 uid
  match purposeLookup uws "4-2-2-2 essential",
      purposeLookup uws "4-2-2-2 long_term",
      purposeLookup uws "4-2-2-2 invest",
      purposeLookup uws "4-2-2-2 personal" with
  | some ew, some lw, some iw, some pw =>
    let txs1 := add_transaction txs uid "income" (total * 0.4)
      "Lương - Chi tiêu thiết yếu" "" (some ew.id) baseTxId now
    let txs2 := add_transaction txs1 uid "income" (total * 0.2)
      "Lương - Tiết kiệm dài hạn" "" (some lw.id) (baseTxId + 1) now
    let txs3 := add_transaction txs2 uid "income" (total * 0.2)
      "Lương - Đầu tư & Tự do tài chính" "" (some iw.id) (baseTxId + 2) now
    let txs4 := add_transaction txs3 uid "income" (total * 0.2)
      "Lương - Chi tiêu cá nhân & Phát triển" "" (some pw.id) (baseTxId + 3) now
    ((ws1, txs4), true)
  | _, _, _, _ => ((ws1, txs), false)

/-- The field chosen in the EditTransaction flow. -/
inductive EditField
  | amount
  | category
  | note
deriving DecidableEq, Repr

/-- Commit step of the EditTransaction flow (`edit_tx_field_value`, main.py
lines 2214–2256), after the per-field validation has produced the new value:
dispatches to the single-field `UPDATE` for the chosen field. -/
def edit_tx_field_value_commit (txs : List Tx) (uid txid : Nat)
    (field : EditField) (newAmount : ℚ) (newText : String) : List Tx :=
  match field with
  | .amount => update_transaction_amount txs uid txid newAmount
  | .category => update_transaction_category txs uid txid newText
  | .note => update_transaction_note txs uid txid newText

/-- Modelled from the spec (§4.5, §8): the month window as the *spec* words
it — the half-open interval `[first-of-month, first-of-next-month)` — for
comparison against the inclusive `BETWEEN` the code actually runs. -/
def spent_in_month_halfopen (txs : List Tx) (uid : Nat) (category : String)
    (year month : Nat) : ℚ :=
  ((txs.filter fun t =>
      decide (t.user_id = uid) && decide (t.tx_type = "expense") &&
        decide (t.category = category) &&
        DateTime.le (monthFirst year month) t.created_at &&
        DateTime.lt t.created_at (monthNext year month)).map Tx.amount).sum

/-! ## Helper lemmas -/

theorem get_wallet_balance_append (txs l : List Tx) (uid wid : Nat) :
    get_wallet_balance (txs ++ l) uid wid =
      get_wallet_balance txs uid wid + get_wallet_balance l uid wid := by
  simp [get_wallet_balance, List.filter_append]

theorem get_wallet_balance_singleton (t : Tx) (uid wid : Nat) :
    get_wallet_balance [t] uid wid =
      if t.user_id = uid ∧ t.wallet_id = some wid then signedAmount t else 0 := by
  simp only [get_wallet_balance, List.filter]
  split <;> rename_i h <;> simp at h <;> simp [h]
  rw [if_neg]
  rintro ⟨hu, hw⟩
  exact h hu hw

theorem get_balance_append (txs l : List Tx) (uid : Nat) :
    get_balance (txs ++ l) uid = get_balance txs uid + get_balance l uid := by
  simp [get_balance, List.filter_append]
  ring

theorem get_spent_append (txs l : List Tx) (uid : Nat) (category : String)
    (year month : Nat) :
    get_spent_in_month_for_category (txs ++ l) uid category year month =
      get_spent_in_month_for_category txs uid category year month +
        get_spent_in_month_for_category l uid category year month := by
  simp [get_spent_in_month_for_category, List.filter_append]

/-! ## Claim theorems -/

/-- C3: of the spec's money-parser test vector, `parse("200k") = 200000`,
`parse("1 triệu") = 1000000`, `parse("150.000") = 150000` and
`parse("") fails` hold, but `parse("1.5tr")` evaluates to `15000000`, not the
documented `1500000`: the code strips the `tr` suffix and then deletes the
`.` as a grouping separator, turning `1.5` into `15` — contradicting the
function's own docstring (`1.5tr -> 1_500_000`). -/
theorem parse_vietnamese_money_test_vector :
    parse_vietnamese_money "200k" = some 200000 ∧
    parse_vietnamese_money "1.5tr" = some 15000000 ∧
    parse_vietnamese_money "1.5tr" ≠ some 1500000 ∧
    parse_vietnamese_money "1 triệu" = some 1000000 ∧
    parse_vietnamese_money "150.000" = some 150000 ∧
    parse_vietnamese_money "" = none := by
  refine ⟨by decide, by decide, by decide, by decide, by decide, by decide⟩

/-- C4: the 4-2-2-2 allocator is a pure function returning exactly
`(0.40·total, 0.20·total, 0.20·total, 0.20·total)`, and the four bucket
amounts sum exactly to the input total. -/
theorem budget_income_alloc_exact (total : ℚ) (h : 0 ≤ total) :
    budget_income_alloc total =
      (0.40 * total, 0.20 * total, 0.20 * total, 0.20 * total) ∧
    (budget_income_alloc total).1 + (budget_income_alloc total).2.1 +
      (budget_income_alloc total).2.2.1 + (budget_income_alloc total).2.2.2 =
        total := by
  refine ⟨?_, ?_⟩
  · simp only [budget_income_alloc, Prod.mk.injEq]
    refine ⟨by ring, by ring, by ring, by ring⟩
  · simp only [budget_income_alloc]
    ring

/-- Witness for C4 at `total = 15000000`. -/
theorem budget_income_alloc_exact_witness :
    budget_income_alloc 15000000 =
      (0.40 * 15000000, 0.20 * 15000000, 0.20 * 15000000, 0.20 * 15000000) ∧
    (budget_income_alloc 15000000).1 + (budget_income_alloc 15000000).2.1 +
      (budget_income_alloc 15000000).2.2.1 +
      (budget_income_alloc 15000000).2.2.2 = 15000000 :=
  budget_income_alloc_exact 15000000 (by norm_num)

/-- C1: committing the Transfer flow creates exactly two transactions — an
expense of `X` on wallet `A` and an income of `X` on wallet `B`, each naming
the other wallet in its category field — after which `A`'s derived balance
has decreased by `X`, `B`'s has increased by `X`, and the user's total
derived balance is unchanged. -/
theorem transfer_commit_two_txs_and_balances (txs : List Tx)
    (uid fromWid toWid : Nat) (fromName toName note : String) (amount : ℚ)
    (id1 id2 : Nat) (t1 t2 : DateTime) (hpos : 0 < amount)
    (hne : fromWid ≠ toWid) :
    transfer_commit txs uid fromWid toWid fromName toName amount note id1 id2
        t1 t2 =
      txs ++
        [⟨id1, uid, "expense", amount, "Chuyển sang ví " ++ toName, note,
          some fromWid, t1⟩,
         ⟨id2, uid, "income", amount, "Chuyển từ ví " ++ fromName, note,
          some toWid, t2⟩] ∧
    get_wallet_balance
        (transfer_commit txs uid fromWid toWid fromName toName amount note id1
          id2 t1 t2) uid fromWid =
      get_wallet_balance txs uid fromWid - amount ∧
    get_wallet_balance
        (transfer_commit txs uid fromWid toWid fromName toName amount note id1
          id2 t1 t2) uid toWid =
      get_wallet_balance txs uid toWid + amount ∧
    get_balance
        (transfer_commit txs uid fromWid toWid fromName toName amount note id1
          id2 t1 t2) uid =
      get_balance txs uid := by
  have hshape : transfer_commit txs uid fromWid toWid fromName toName amount
      note id1 id2 t1 t2 =
      txs ++
        [⟨id1, uid, "expense", amount, "Chuyển sang ví " ++ toName, note,
          some fromWid, t1⟩,
         ⟨id2, uid, "income", amount, "Chuyển từ ví " ++ fromName, note,
          some toWid, t2⟩] := by
    simp [transfer_commit, add_transaction]
  refine ⟨hshape, ?_, ?_, ?_⟩
  · rw [hshape, get_wallet_balance_append]
    have : get_wallet_balance
        [⟨id1, uid, "expense", amount, "Chuyển sang ví " ++ toName, note,
          some fromWid, t1⟩,
         ⟨id2, uid, "income", amount, "Chuyển từ ví " ++ fromName, note,
          some toWid, t2⟩] uid fromWid = -amount := by
      simp [get_wallet_balance, signedAmount, hne, Ne.symm hne]
    rw [this]; ring
  · rw [hshape, get_wallet_balance_append]
    have : get_wallet_balance
        [⟨id1, uid, "expense", amount, "Chuyển sang ví " ++ toName, note,
          some fromWid, t1⟩,
         ⟨id2, uid, "income", amount, "Chuyển từ ví " ++ fromName, note,
          some toWid, t2⟩] uid toWid = amount := by
      simp [get_wallet_balance, signedAmount, hne, Ne.symm hne]
    rw [this]
  · rw [hshape, get_balance_append]
    have : get_balance
        [⟨id1, uid, "expense", amount, "Chuyển sang ví " ++ toName, note,
          some fromWid, t1⟩,
         ⟨id2, uid, "income", amount, "Chuyển từ ví " ++ fromName, note,
          some toWid, t2⟩] uid = 0 := by
      simp [get_balance]
    rw [this]; ring

/-- Witness for C1: a concrete transfer of 500000 from wallet 1 to wallet 2
on an empty ledger. -/
theorem transfer_commit_two_txs_and_balances_witness :
    get_wallet_balance
        (transfer_commit [] 1 1 2 "A" "B" 500000 "" 10 11
          ⟨2024, 1, 2, 3, 4, 5, 6⟩ ⟨2024, 1, 2, 3, 4, 5, 7⟩) 1 1 =
      get_wallet_balance ([] : List Tx) 1 1 - 500000 ∧
    get_wallet_balance
        (transfer_commit [] 1 1 2 "A" "B" 500000 "" 10 11
          ⟨2024, 1, 2, 3, 4, 5, 6⟩ ⟨2024, 1, 2, 3, 4, 5, 7⟩) 1 2 =
      get_wallet_balance ([] : List Tx) 1 2 + 500000 ∧
    get_balance
        (transfer_commit [] 1 1 2 "A" "B" 500000 "" 10 11
          ⟨2024, 1, 2, 3, 4, 5, 6⟩ ⟨2024, 1, 2, 3, 4, 5, 7⟩) 1 =
      get_balance ([] : List Tx) 1 := by
  have h := transfer_commit_two_txs_and_balances [] 1 1 2 "A" "B" "" 500000 10
    11 ⟨2024, 1, 2, 3, 4, 5, 6⟩ ⟨2024, 1, 2, 3, 4, 5, 7⟩ (by norm_num)
    (by decide)
  exact ⟨h.2.1, h.2.2.1, h.2.2.2⟩

/-- C10: neither the expense commit nor the transfer commit inspects the
source wallet's derived balance — both are total functions of the prior
state that always insert their transactions for any positive amount — and as
a consequence derived wallet balances and the user's total balance can go
negative (whenever the source balance is below the amount, in particular at
balance 0). -/
theorem no_balance_check_on_expense_or_transfer (txs : List Tx)
    (ls : List SpendingLimit) (uid fromWid toWid wid : Nat)
    (fromName toName category note : String) (amount : ℚ)
    (id1 id2 txid : Nat) (t1 t2 now : DateTime) (year month : Nat)
    (hpos : 0 < amount) (hne : fromWid ≠ toWid) :
    (transfer_commit txs uid fromWid toWid fromName toName amount note id1 id2
        t1 t2).length = txs.length + 2 ∧
    (add_tx_wallet_commit txs ls uid "expense" amount category note wid txid
        now year month).1 =
      txs ++ [⟨txid, uid, "expense", amount, category, note, some wid, now⟩] ∧
    (get_wallet_balance txs uid fromWid < amount →
      get_wallet_balance
          (transfer_commit txs uid fromWid toWid fromName toName amount note
            id1 id2 t1 t2) uid fromWid < 0) ∧
    (get_balance txs uid < amount →
      get_balance
          ((add_tx_wallet_commit txs ls uid "expense" amount category note wid
            txid now year month).1) uid < 0) := by
  have hshape : transfer_commit txs uid fromWid toWid fromName toName amount
      note id1 id2 t1 t2 =
      txs ++
        [⟨id1, uid, "expense", amount, "Chuyển sang ví " ++ toName, note,
          some fromWid, t1⟩,
         ⟨id2, uid, "income", amount, "Chuyển từ ví " ++ fromName, note,
          some toWid, t2⟩] := by
    simp [transfer_commit, add_transaction]
  have hadd : (add_tx_wallet_commit txs ls uid "expense" amount category note
      wid txid now year month).1 =
      txs ++ [⟨txid, uid, "expense", amount, category, note, some wid, now⟩] := by
    simp [add_tx_wallet_commit, add_transaction]
  refine ⟨?_, hadd, ?_, ?_⟩
  · rw [hshape]; simp
  · intro hlt
    rw [hshape, get_wallet_balance_append]
    have : get_wallet_balance
        [⟨id1, uid, "expense", amount, "Chuyển sang ví " ++ toName, note,
          some fromWid, t1⟩,
         ⟨id2, uid, "income", amount, "Chuyển từ ví " ++ fromName, note,
          some toWid, t2⟩] uid fromWid = -amount := by
      simp [get_wallet_balance, signedAmount, hne, Ne.symm hne]
    rw [this]
    linarith
  · intro hlt
    rw [hadd, get_balance_append]
    have : get_balance
        [⟨txid, uid, "expense", amount, category, note, some wid, now⟩] uid =
        -amount := by
      simp [get_balance]
    rw [this]
    linarith

/-- Witness for C10: a 35000 expense and a 35000 transfer from an empty
ledger leave wallet 1 and the user total at −35000. -/
theorem no_balance_check_on_expense_or_transfer_witness :
    get_wallet_balance
        (transfer_commit [] 1 1 2 "A" "B" 35000 "" 1 2
          ⟨2024, 1, 2, 3, 4, 5, 6⟩ ⟨2024, 1, 2, 3, 4, 5, 7⟩) 1 1 < 0 ∧
    get_balance
        ((add_tx_wallet_commit [] [] 1 "expense" 35000 "Ăn uống" "" 1 3
          ⟨2024, 1, 2, 3, 4, 5, 8⟩ 2024 1).1) 1 < 0 := by
  have h := no_balance_check_on_expense_or_transfer [] [] 1 1 2 1 "A" "B"
    "Ăn uống" "" 35000 1 2 3 ⟨2024, 1, 2, 3, 4, 5, 6⟩ ⟨2024, 1, 2, 3, 4, 5, 7⟩
    ⟨2024, 1, 2, 3, 4, 5, 8⟩ 2024 1 (by norm_num) (by decide)
  refine ⟨h.2.2.1 ?_, h.2.2.2 ?_⟩
  · show get_wallet_balance ([] : List Tx) 1 1 < 35000
    simp [get_wallet_balance]
  · show get_balance ([] : List Tx) 1 < 35000
    simp [get_balance]

/-- C2: for a positive requested amount on a goal with non-negative current
amount, the withdraw commit fails exactly when the amount exceeds
`current_amount`; on failure goal and history are returned untouched; on
success `current_amount` becomes `current − amount` and one history entry is
appended; and both deposit and withdraw preserve `current_amount ≥ 0`. -/
theorem goal_withdraw_guard_and_nonneg (goal : SavingGoal)
    (history : List GoalTx) (amount : ℚ) (note : String) (hpos : 0 < amount)
    (hcur : 0 ≤ goal.current_amount) :
    ((goal_money_note_commit goal history "withdraw" amount note).2.2 = false ↔
      goal.current_amount < amount) ∧
    ((goal_money_note_commit goal history "withdraw" amount note).2.2 = false →
      goal_money_note_commit goal history "withdraw" amount note =
        (goal, history, false)) ∧
    ((goal_money_note_commit goal history "withdraw" amount note).2.2 = true →
      (goal_money_note_commit goal history "withdraw" amount
          note).1.current_amount = goal.current_amount - amount ∧
      (goal_money_note_commit goal history "withdraw" amount note).2.1 =
        history ++ [⟨goal.id, "withdraw", amount, note⟩]) ∧
    0 ≤ (goal_money_note_commit goal history "withdraw" amount
        note).1.current_amount ∧
    0 ≤ (goal_money_note_commit goal history "deposit" amount
        note).1.current_amount := by
  by_cases h : goal.current_amount < amount
  · refine ⟨by simp [goal_money_note_commit, h], ?_, ?_, ?_, ?_⟩
    · intro _
      simp [goal_money_note_commit, h]
    · intro habs
      simp [goal_money_note_commit, h] at habs
    · simp [goal_money_note_commit, h]
      exact hcur
    · simp [goal_money_note_commit]
      linarith
  · refine ⟨by simp [goal_money_note_commit, h], ?_, ?_, ?_, ?_⟩
    · intro habs
      simp [goal_money_note_commit, h] at habs
    · intro _
      simp [goal_money_note_commit, h]
    · simp [goal_money_note_commit, h]
      linarith [not_lt.mp h]
    · simp [goal_money_note_commit]
      linarith

/-- Witness for C2: goal #1 holding 300000, withdrawing 100000. -/
theorem goal_withdraw_guard_and_nonneg_witness :
    ((goal_money_note_commit ⟨1, 1, "Du lịch", 1000000, 300000⟩ [] "withdraw"
        100000 "").2.2 = false ↔ (300000 : ℚ) < 100000) ∧
    0 ≤ (goal_money_note_commit ⟨1, 1, "Du lịch", 1000000, 300000⟩ []
        "withdraw" 100000 "").1.current_amount := by
  have h := goal_withdraw_guard_and_nonneg ⟨1, 1, "Du lịch", 1000000, 300000⟩
    [] 100000 "" (by norm_num) (by norm_num)
  exact ⟨h.1, h.2.2.2.1⟩

/-- C9: committing an edit of one field overwrites exactly that field of
exactly the selected transaction: the result has the same length, every
transaction whose (id, user) does not match is returned unchanged at its
position, and the matching transaction keeps its type, wallet, timestamp and
the two non-chosen editable fields while the chosen field takes the new
value. -/
theorem edit_tx_overwrites_exactly_one_field (txs : List Tx) (uid txid : Nat)
    (field : EditField) (newAmount : ℚ) (newText : String) :
    (edit_tx_field_value_commit txs uid txid field newAmount newText).length =
      txs.length ∧
    ∀ (i : Nat) (t : Tx), txs[i]? = some t →
      ∃ t', (edit_tx_field_value_commit txs uid txid field newAmount
          newText)[i]? = some t' ∧
        t'.id = t.id ∧ t'.user_id = t.user_id ∧ t'.tx_type = t.tx_type ∧
        t'.wallet_id = t.wallet_id ∧ t'.created_at = t.created_at ∧
        (field ≠ .amount → t'.amount = t.amount) ∧
        (field ≠ .category → t'.category = t.category) ∧
        (field ≠ .note → t'.note = t.note) ∧
        (¬(t.id = txid ∧ t.user_id = uid) → t' = t) ∧
        (t.id = txid ∧ t.user_id = uid →
          (field = .amount → t'.amount = newAmount) ∧
          (field = .category → t'.category = newText) ∧
          (field = .note → t'.note = newText)) := by
  constructor
  · cases field <;>
      simp [edit_tx_field_value_commit, update_transaction_amount,
        update_transaction_category, update_transaction_note]
  · intro i t ht
    by_cases hm : t.id = txid ∧ t.user_id = uid
    · cases field
      · refine ⟨{ t with amount := newAmount }, ?_⟩
        simp [edit_tx_field_value_commit, update_transaction_amount,
          List.getElem?_map, ht, hm]
      · refine ⟨{ t with category := newText }, ?_⟩
        simp [edit_tx_field_value_commit, update_transaction_category,
          List.getElem?_map, ht, hm]
      · refine ⟨{ t with note := newText }, ?_⟩
        simp [edit_tx_field_value_commit, update_transaction_note,
          List.getElem?_map, ht, hm]
    · refine ⟨t, ?_⟩
      cases field <;>
        simp [edit_tx_field_value_commit, update_transaction_amount,
          update_transaction_category, update_transaction_note,
          List.getElem?_map, ht, hm]

/-- Witness for C9: editing the category of transaction #1 in a two-element
ledger leaves the other transaction untouched. -/
theorem edit_tx_overwrites_exactly_one_field_witness :
    (edit_tx_field_value_commit
        [⟨1, 1, "expense", 100, "A", "n", some 1, ⟨2024, 1, 2, 3, 4, 5, 6⟩⟩,
         ⟨2, 1, "income", 200, "B", "m", some 2, ⟨2024, 1, 2, 3, 4, 5, 7⟩⟩]
        1 1 .category 0 "C").length = 2 ∧
    ∃ t' : Tx, (edit_tx_field_value_commit
        [⟨1, 1, "expense", 100, "A", "n", some 1, ⟨2024, 1, 2, 3, 4, 5, 6⟩⟩,
         ⟨2, 1, "income", 200, "B", "m", some 2, ⟨2024, 1, 2, 3, 4, 5, 7⟩⟩]
        1 1 .category 0 "C")[1]? = some t' ∧
      t' = ⟨2, 1, "income", 200, "B", "m", some 2, ⟨2024, 1, 2, 3, 4, 5, 7⟩⟩ := by
  have h := edit_tx_overwrites_exactly_one_field
    [⟨1, 1, "expense", 100, "A", "n", some 1, ⟨2024, 1, 2, 3, 4, 5, 6⟩⟩,
     ⟨2, 1, "income", 200, "B", "m", some 2, ⟨2024, 1, 2, 3, 4, 5, 7⟩⟩]
    1 1 .category 0 "C"
  refine ⟨h.1, ?_⟩
  obtain ⟨t', hget, _, _, _, _, _, _, _, _, hunch, _⟩ :=
    h.2 1 ⟨2, 1, "income", 200, "B", "m", some 2, ⟨2024, 1, 2, 3, 4, 5, 7⟩⟩
      (by simp)
  exact ⟨t', hget, hunch (by simp)⟩

/-- C5: committing an expense in the AddTransaction flow always inserts the
transaction (the limit evaluation never blocks or undoes it); the
month-to-date spend is computed over the post-insert store — so, when the
commit timestamp lies in the queried month window, it includes the
just-committed expense — and the warning flag is set exactly when a stored
limit exists and that spend exceeds it. -/
theorem add_tx_commit_limit_advisory (txs : List Tx) (ls : List SpendingLimit)
    (uid : Nat) (amount : ℚ) (category note : String) (wid txid : Nat)
    (now : DateTime) (year month : Nat) (hpos : 0 < amount)
    (hin : DateTime.le (monthFirst year month) now = true ∧
      DateTime.le now (monthNext year month) = true) :
    (add_tx_wallet_commit txs ls uid "expense" amount category note wid txid
        now year month).1 =
      txs ++ [⟨txid, uid, "expense", amount, category, note, some wid, now⟩] ∧
    get_spent_in_month_for_category
        ((add_tx_wallet_commit txs ls uid "expense" amount category note wid
          txid now year month).1) uid category year month =
      get_spent_in_month_for_category txs uid category year month + amount ∧
    ((add_tx_wallet_commit txs ls uid "expense" amount category note wid txid
        now year month).2 = true ↔
      ∃ lim, get_limit ls uid category "month" = some lim ∧
        lim < get_spent_in_month_for_category
          ((add_tx_wallet_commit txs ls uid "expense" amount category note wid
            txid now year month).1) uid category year month) := by
  have hadd : (add_tx_wallet_commit txs ls uid "expense" amount category note
      wid txid now year month).1 =
      txs ++ [⟨txid, uid, "expense", amount, category, note, some wid, now⟩] := by
    simp [add_tx_wallet_commit, add_transaction]
  have hspent : get_spent_in_month_for_category
      (txs ++ [⟨txid, uid, "expense", amount, category, note, some wid, now⟩])
      uid category year month =
      get_spent_in_month_for_category txs uid category year month + amount := by
    rw [get_spent_append]
    have : get_spent_in_month_for_category
        [⟨txid, uid, "expense", amount, category, note, some wid, now⟩] uid
        category year month = amount := by
      simp [get_spent_in_month_for_category, inMonthSpend, hin.1, hin.2]
    rw [this]
  have h2 : (add_tx_wallet_commit txs ls uid "expense" amount category note
      wid txid now year month).2 =
      match get_limit ls uid category "month" with
      | some lim => decide (lim < get_spent_in_month_for_category
          (txs ++ [⟨txid, uid, "expense", amount, category, note, some wid,
            now⟩]) uid category year month)
      | none => false := by
    simp [add_tx_wallet_commit, add_transaction]
  refine ⟨hadd, by rw [hadd]; exact hspent, ?_⟩
  rw [hadd, h2]
  cases hl : get_limit ls uid category "month" with
  | none => simp
  | some lim =>
    simp only [decide_eq_true_eq]
    constructor
    · intro h
      exact ⟨lim, rfl, h⟩
    · rintro ⟨lim', hlim', h⟩
      cases hlim'
      exact h

/-- Witness for C5: an expense of 35000 against a 30000 monthly limit on an
empty ledger — the transaction is inserted and the post-insert spend counts
it. -/
theorem add_tx_commit_limit_advisory_witness :
    (add_tx_wallet_commit [] [⟨1, "Ăn uống", "month", 30000⟩] 1 "expense"
        35000 "Ăn uống" "" 1 1 ⟨2024, 1, 15, 0, 0, 0, 0⟩ 2024 1).1 =
      [] ++ [⟨1, 1, "expense", 35000, "Ăn uống", "", some 1,
        ⟨2024, 1, 15, 0, 0, 0, 0⟩⟩] ∧
    get_spent_in_month_for_category
        ((add_tx_wallet_commit [] [⟨1, "Ăn uống", "month", 30000⟩] 1 "expense"
          35000 "Ăn uống" "" 1 1 ⟨2024, 1, 15, 0, 0, 0, 0⟩ 2024 1).1) 1
        "Ăn uống" 2024 1 =
      get_spent_in_month_for_category [] 1 "Ăn uống" 2024 1 + 35000 := by
  have h := add_tx_commit_limit_advisory [] [⟨1, "Ăn uống", "month", 30000⟩] 1
    35000 "Ăn uống" "" 1 1 ⟨2024, 1, 15, 0, 0, 0, 0⟩ 2024 1 (by norm_num)
    ⟨by decide, by decide⟩
  exact ⟨h.1, h.2.1⟩

/-- C6 (amended): the month spend query uses SQL `BETWEEN`, which is
inclusive at both ends, so its window is the **closed** interval
`[first-of-month, first-of-next-month]`: a matching expense timestamped
exactly at the first instant of the next month is counted. -/
theorem spent_month_window_inclusive (txs : List Tx) (uid : Nat)
    (category : String) (year month : Nat) (tx : Tx) (huid : tx.user_id = uid)
    (htype : tx.tx_type = "expense") (hcat : tx.category = category)
    (hts : tx.created_at = monthNext year month) :
    get_spent_in_month_for_category (txs ++ [tx]) uid category year month =
      get_spent_in_month_for_category txs uid category year month +
        tx.amount := by
  rw [get_spent_append]
  have h1 : DateTime.le (monthFirst year month) (monthNext year month) = true := by
    by_cases h : month = 12 <;>
      simp [monthFirst, monthNext, DateTime.le, h] <;> omega
  have h2 : DateTime.le (monthNext year month) (monthNext year month) = true := by
    simp [DateTime.le]
  have : get_spent_in_month_for_category [tx] uid category year month =
      tx.amount := by
    simp [get_spent_in_month_for_category, inMonthSpend, huid, htype, hcat,
      hts, h1, h2]
  rw [this]

/-- Witness for C6 (amended): a 100-unit expense stamped 2024-02-01T00:00:00
is counted by the January-2024 query. -/
theorem spent_month_window_inclusive_witness :
    get_spent_in_month_for_category
        ([] ++ [⟨1, 1, "expense", 100, "Ăn uống", "", some 1,
          ⟨2024, 2, 1, 0, 0, 0, 0⟩⟩]) 1 "Ăn uống" 2024 1 =
      get_spent_in_month_for_category [] 1 "Ăn uống" 2024 1 + 100 :=
  spent_month_window_inclusive [] 1 "Ăn uống" 2024 1
    ⟨1, 1, "expense", 100, "Ăn uống", "", some 1, ⟨2024, 2, 1, 0, 0, 0, 0⟩⟩
    rfl rfl rfl (by decide)

/-- Counterexample for C6 as stated: the code's query counts a transaction
timestamped exactly at the first instant of the next month (result 100),
whereas the spec's half-open window `[first, next)` would exclude it
(result 0). -/
theorem spent_month_endpoint_included_cex :
    get_spent_in_month_for_category
        [⟨1, 1, "expense", 100, "Ăn uống", "", some 1,
          ⟨2024, 2, 1, 0, 0, 0, 0⟩⟩] 1 "Ăn uống" 2024 1 = 100 ∧
    spent_in_month_halfopen
        [⟨1, 1, "expense", 100, "Ăn uống", "", some 1,
          ⟨2024, 2, 1, 0, 0, 0, 0⟩⟩] 1 "Ăn uống" 2024 1 = 0 := by
  refine ⟨by decide, by decide⟩

theorem readExponent_nonneg (mant : ℚ) (r : List Char) (m : ℚ)
    (hm : 0 ≤ mant) (h : readExponent mant r = some m) : 0 ≤ m := by
  simp only [readExponent] at h
  split at h
  · exact absurd h (by simp)
  · simp only [Option.some.injEq] at h
    subst h
    have hpow : (0 : ℚ) ≤ (10 : ℚ) ^ (readDigitsAux 0 0 (expSign r).2).1 :=
      pow_nonneg (by norm_num) _
    split
    · exact mul_nonneg hm (inv_nonneg.mpr hpow)
    · exact mul_nonneg hm hpow

theorem readMagnitude_nonneg (cs : List Char) (m : ℚ)
    (h : readMagnitude cs = some m) : 0 ≤ m := by
  simp only [readMagnitude] at h
  split at h
  · exact absurd h (by simp)
  · have hmant : (0 : ℚ) ≤
        ((readDigitsAux 0 0 cs).1 : ℚ) +
          ((fracPart (readDigitsAux 0 0 cs).2.2).1 : ℚ) /
            (10 : ℚ) ^ (fracPart (readDigitsAux 0 0 cs).2.2).2.1 := by
      have h10 : (0 : ℚ) ≤ (10 : ℚ) ^ (fracPart (readDigitsAux 0 0 cs).2.2).2.1 :=
        pow_nonneg (by norm_num) _
      have := div_nonneg
        (show (0 : ℚ) ≤ ((fracPart (readDigitsAux 0 0 cs).2.2).1 : ℚ) from
          Nat.cast_nonneg _) h10
      have := Nat.cast_nonneg (α := ℚ) (readDigitsAux 0 0 cs).1
      linarith
    split at h
    · simp only [Option.some.injEq] at h
      subst h
      exact hmant
    · exact readExponent_nonneg _ _ _ hmant h
    · exact readExponent_nonneg _ _ _ hmant h
    · exact absurd h (by simp)

theorem pyFloatCore_neg_head (cs : List Char) (q : ℚ)
    (h : pyFloatCore cs = some q) (hneg : q < 0) : cs.head? = some '-' := by
  simp only [pyFloatCore] at h
  split at h
  · rfl
  · have := readMagnitude_nonneg _ _ h
    exact absurd hneg (not_lt.mpr this)
  · rename_i r h1 h2
    have := readMagnitude_nonneg _ _ h
    exact absurd hneg (not_lt.mpr this)

theorem moneyMult_pos (text : String) : 0 < moneyMult text := by
  unfold moneyMult
  split
  · norm_num
  · split <;> norm_num

/-- C7 (amended): the money parser either fails or returns the parsed
remainder times a positive multiplier, and the result can be negative only
when the digit string handed to `float` carries a leading minus sign
(Python's `float` accepts signed input, e.g. `parse("-5") = -5`): every
negative parse result implies a leading `'-'` on the cleaned remainder. -/
theorem parse_money_negative_needs_minus (text : String) (q : ℚ)
    (h : parse_vietnamese_money text = some q) (hneg : q < 0) :
    (trimChars (moneyDigits text)).head? = some '-' := by
  unfold parse_vietnamese_money at h
  split at h
  · exact absurd h (by simp)
  · split at h
    · exact absurd h (by simp)
    · rcases ho : pyFloat (moneyDigits text) with _ | n
      · rw [ho] at h
        simp at h
      · rw [ho] at h
        simp only [Option.map_some', Option.some.injEq] at h
        have hmp := moneyMult_pos text
        have hn : n < 0 := by
          by_contra hge
          push_neg at hge
          have : 0 ≤ n * moneyMult text := mul_nonneg hge hmp.le
          rw [h] at this
          exact absurd hneg (not_lt.mpr this)
        unfold pyFloat at ho
        exact pyFloatCore_neg_head _ _ ho hn

/-- Witness for C7 (amended) at input `"-5"`. -/
theorem parse_money_negative_needs_minus_witness :
    (trimChars (moneyDigits "-5")).head? = some '-' :=
  parse_money_negative_needs_minus "-5" (-5) (by decide) (by decide)

/-- Counterexample for C7 as stated: `parse("-5")` succeeds and returns the
negative amount −5, so the parser does not "never return a negative
amount". -/
theorem parse_money_returns_negative_cex :
    parse_vietnamese_money "-5" = some (-5) ∧ ((-5 : ℚ) < 0) := by
  refine ⟨by decide, by decide⟩

/-- C8: a salary-split commit with a positive total either aborts — when the
four canonical 4-2-2-2 wallets are not all present — leaving both the wallet
and the transaction tables exactly as they were (no transaction inserted),
or succeeds, appending exactly four income transactions, one per canonical
wallet, with amounts `0.4·total, 0.2·total, 0.2·total, 0.2·total`. -/
theorem salary_commit_four_or_nothing (ws : List Wallet) (txs : List Tx)
    (uid : Nat) (total : ℚ) (baseWalletId baseTxId : Nat) (now : DateTime)
    (hpos : 0 < total) (result : List Wallet × List Tx) (flag : Bool)
    (heq : salary_enter_amount_commit ws txs uid total baseWalletId baseTxId
      now = (result, flag)) :
    (flag = false → result = (ws, txs)) ∧
    (flag = true → ∃ ew lw iw pw : Wallet,
      purposeLookup (get_wallets (ensure_default_wallets ws uid baseWalletId)
        uid) "4-2-2-2 essential" = some ew ∧
      purposeLookup (get_wallets (ensure_default_wallets ws uid baseWalletId)
        uid) "4-2-2-2 long_term" = some lw ∧
      purposeLookup (get_wallets (ensure_default_wallets ws uid baseWalletId)
        uid) "4-2-2-2 invest" = some iw ∧
      purposeLookup (get_wallets (ensure_default_wallets ws uid baseWalletId)
        uid) "4-2-2-2 personal" = some pw ∧
      result.2 = txs ++
        [⟨baseTxId, uid, "income", total * 0.4, "Lương - Chi tiêu thiết yếu",
          "", some ew.id, now⟩,
         ⟨baseTxId + 1, uid, "income", total * 0.2,
          "Lương - Tiết kiệm dài hạn", "", some lw.id, now⟩,
         ⟨baseTxId + 2, uid, "income", total * 0.2,
          "Lương - Đầu tư & Tự do tài chính", "", some iw.id, now⟩,
         ⟨baseTxId + 3, uid, "income", total * 0.2,
          "Lương - Chi tiêu cá nhân & Phát triển", "", some pw.id, now⟩]) := by
  by_cases hw : 0 < (List.filter (fun w => decide (w.user_id = uid)) ws).length
  · have hens : ensure_default_wallets ws uid baseWalletId = ws := by
      simp only [ensure_default_wallets, if_pos hw]
    rw [salary_enter_amount_commit, hens] at heq
    rcases he : purposeLookup (get_wallets ws uid) "4-2-2-2 essential"
      with _ | ew
    · rw [he] at heq
      simp only [Prod.mk.injEq] at heq
      refine ⟨fun _ => heq.1.symm, fun hf => ?_⟩
      rw [← heq.2] at hf
      exact absurd hf (by simp)
    · rcases hl : purposeLookup (get_wallets ws uid) "4-2-2-2 long_term"
        with _ | lw
      · rw [he, hl] at heq
        simp only [Prod.mk.injEq] at heq
        refine ⟨fun _ => heq.1.symm, fun hf => ?_⟩
        rw [← heq.2] at hf
        exact absurd hf (by simp)
      · rcases hi : purposeLookup (get_wallets ws uid) "4-2-2-2 invest"
          with _ | iw
        · rw [he, hl, hi] at heq
          simp only [Prod.mk.injEq] at heq
          refine ⟨fun _ => heq.1.symm, fun hf => ?_⟩
          rw [← heq.2] at hf
          exact absurd hf (by simp)
        · rcases hp : purposeLookup (get_wallets ws uid) "4-2-2-2 personal"
            with _ | pw
          · rw [he, hl, hi, hp] at heq
            simp only [Prod.mk.injEq] at heq
            refine ⟨fun _ => heq.1.symm, fun hf => ?_⟩
            rw [← heq.2] at hf
            exact absurd hf (by simp)
          · rw [he, hl, hi, hp] at heq
            simp only [add_transaction, List.append_assoc,
              List.cons_append, List.nil_append, Prod.mk.injEq] at heq
            refine ⟨fun hf => ?_, fun _ => ?_⟩
            · rw [← heq.2] at hf
              exact absurd hf (by simp)
            · refine ⟨ew, lw, iw, pw, ?_, ?_, ?_, ?_, ?_⟩
              · rw [hens]; exact he
              · rw [hens]; exact hl
              · rw [hens]; exact hi
              · rw [hens]; exact hp
              · rw [← heq.1]
  · have hnil : List.filter (fun w => decide (w.user_id = uid)) ws = [] := by
      rcases Nat.eq_zero_or_pos
        (List.filter (fun w => decide (w.user_id = uid)) ws).length with h | h
      · exact List.length_eq_zero.mp h
      · exact absurd h hw
    have hens : ensure_default_wallets ws uid baseWalletId =
        ws ++ defaultWallets uid baseWalletId := by
      simp only [ensure_default_wallets, if_neg hw]
    have huws : get_wallets (ws ++ defaultWallets uid baseWalletId) uid =
        defaultWallets uid baseWalletId := by
      simp [get_wallets, List.filter_append, hnil, defaultWallets]
    have he : purposeLookup (defaultWallets uid baseWalletId)
        "4-2-2-2 essential" =
        some ⟨baseWalletId, uid, "Chi tiêu thiết yếu", "4-2-2-2 essential"⟩ := by
      simp [purposeLookup, defaultWallets]
    have hl : purposeLookup (defaultWallets uid baseWalletId)
        "4-2-2-2 long_term" =
        some ⟨baseWalletId + 1, uid, "Tiết kiệm dài hạn",
          "4-2-2-2 long_term"⟩ := by
      simp [purposeLookup, defaultWallets]
    have hi : purposeLookup (defaultWallets uid baseWalletId)
        "4-2-2-2 invest" =
        some ⟨baseWalletId + 2, uid, "Đầu tư & Tự do tài chính",
          "4-2-2-2 invest"⟩ := by
      simp [purposeLookup, defaultWallets]
    have hp : purposeLookup (defaultWallets uid baseWalletId)
        "4-2-2-2 personal" =
        some ⟨baseWalletId + 3, uid, "Chi tiêu cá nhân & Phát triển",
          "4-2-2-2 personal"⟩ := by
      simp [purposeLookup, defaultWallets]
    rw [salary_enter_amount_commit, hens, huws, he, hl, hi, hp] at heq
    simp only [add_transaction, List.append_assoc, List.cons_append,
      List.nil_append, Prod.mk.injEq] at heq
    refine ⟨fun hf => ?_, fun _ => ?_⟩
    · rw [← heq.2] at hf
      exact absurd hf (by simp)
    · refine ⟨⟨baseWalletId, uid, "Chi tiêu thiết yếu", "4-2-2-2 essential"⟩,
        ⟨baseWalletId + 1, uid, "Tiết kiệm dài hạn", "4-2-2-2 long_term"⟩,
        ⟨baseWalletId + 2, uid, "Đầu tư & Tự do tài chính", "4-2-2-2 invest"⟩,
        ⟨baseWalletId + 3, uid, "Chi tiêu cá nhân & Phát triển",
          "4-2-2-2 personal"⟩, ?_, ?_, ?_, ?_, ?_⟩
      · rw [hens, huws]; exact he
      · rw [hens, huws]; exact hl
      · rw [hens, huws]; exact hi
      · rw [hens, huws]; exact hp
      · rw [← heq.1]

/-- Witness for C8: salary split of 1000000 for a fresh user (no wallets, so
the four canonical wallets are auto-provisioned) succeeds with four income
transactions. -/
theorem salary_commit_four_or_nothing_witness :
    ∃ ew lw iw pw : Wallet,
      purposeLookup (get_wallets (ensure_default_wallets [] 1 1) 1)
        "4-2-2-2 essential" = some ew ∧
      purposeLookup (get_wallets (ensure_default_wallets [] 1 1) 1)
        "4-2-2-2 long_term" = some lw ∧
      purposeLookup (get_wallets (ensure_default_wallets [] 1 1) 1)
        "4-2-2-2 invest" = some iw ∧
      purposeLookup (get_wallets (ensure_default_wallets [] 1 1) 1)
        "4-2-2-2 personal" = some pw ∧
      (salary_enter_amount_commit [] [] 1 1000000 1 1
          ⟨2024, 1, 5, 0, 0, 0, 0⟩).1.2 = [] ++
        [⟨1, 1, "income", 1000000 * 0.4, "Lương - Chi tiêu thiết yếu", "",
          some ew.id, ⟨2024, 1, 5, 0, 0, 0, 0⟩⟩,
         ⟨1 + 1, 1, "income", 1000000 * 0.2, "Lương - Tiết kiệm dài hạn", "",
          some lw.id, ⟨2024, 1, 5, 0, 0, 0, 0⟩⟩,
         ⟨1 + 2, 1, "income", 1000000 * 0.2,
          "Lương - Đầu tư & Tự do tài chính", "", some iw.id,
          ⟨2024, 1, 5, 0, 0, 0, 0⟩⟩,
         ⟨1 + 3, 1, "income", 1000000 * 0.2,
          "Lương - Chi tiêu cá nhân & Phát triển", "", some pw.id,
          ⟨2024, 1, 5, 0, 0, 0, 0⟩⟩] :=
  (salary_commit_four_or_nothing [] [] 1 1000000 1 1 ⟨2024, 1, 5, 0, 0, 0, 0⟩
    (by norm_num)
    (salary_enter_amount_commit [] [] 1 1000000 1 1
      ⟨2024, 1, 5, 0, 0, 0, 0⟩).1
    (salary_enter_amount_commit [] [] 1 1000000 1 1
      ⟨2024, 1, 5, 0, 0, 0, 0⟩).2 rfl).2 (by decide)
